import Mathlib

/-!
Verification of the request-execution and error-normalization core of the
djd-agent-score-mcp server (src/client.ts) as a shallow embedding in Lean.

The embedding follows the TypeScript source line by line:
  * `ServerConfig`, `DEFAULT_CONFIG`, `setConfig`, `getConfig` model the
    configuration store (client.ts lines 11-24).  JavaScript objects are
    given identity through an explicit heap (`ClientState`), so that the
    copy made by `getConfig` (`\x7b ...config \x7d`) is observable.
  * `RequestOptions`, `buildUrl`, `buildFetchRequest` model the request
    construction (lines 28-57), including the truthiness test
    `body ? JSON.stringify(body) : undefined`.
  * `tryBody`, `catchClause`, `apiRequestRun` model the try/catch of
    `apiRequest` (lines 48-101).  The behaviour of the network transport
    (`fetch`, `response.text()`, `response.json()`) is an oracle value of
    type `FetchOutcome` supplied to the function.  The module variable
    `config` is read at lines 38 and 46 before the first `await` (the
    value at call start, `cfgStart`) and again at line 89 inside the
    catch handler, after resumption from an `await` (`cfgCatch`).
  * `TimerState`, `apiRequestWithTimer` make the `setTimeout` /
    `clearTimeout` resource discipline (lines 46 and 99) explicit.
-/

/-- `ServerConfig` from types.ts: `\x7b baseUrl: string, timeoutMs: number \x7d`. -/
structure ServerConfig where
  baseUrl : String
  timeoutMs : Nat
  deriving DecidableEq, Repr

/-- `Partial<ServerConfig>`: each field may be absent. -/
structure PartialConfig where
  baseUrl : Option String := none
  timeoutMs : Option Nat := none
  deriving DecidableEq, Repr

/-- client.ts lines 11-14: the default configuration.  `envBaseUrl` models
`process.env.DJD_BASE_URL` (`none` when the variable is unset). -/
def DEFAULT_CONFIG (envBaseUrl : Option String) : ServerConfig :=
  { baseUrl := envBaseUrl.getD "https://djd-agent-score.fly.dev"
    timeoutMs := 10000 }

/-- The object spread `\x7b ...config, ...overrides \x7d` (client.ts line 19):
fields present in the override replace the current ones, absent fields are
kept. -/
def mergeConfig (c : ServerConfig) (o : PartialConfig) : ServerConfig :=
  { baseUrl := o.baseUrl.getD c.baseUrl
    timeoutMs := o.timeoutMs.getD c.timeoutMs }

/-- Heap-based model of the module state of client.ts.  JavaScript objects
live in `heap` (addresses are list indices); the module variable `config`
(line 16) holds the address `configAddr`. -/
structure ClientState where
  heap : List ServerConfig
  configAddr : Nat
  deriving DecidableEq, Repr

/-- The well-formedness invariant: the `config` variable points into the heap. -/
def ClientState.wf (s : ClientState) : Prop := s.configAddr < s.heap.length

/-- The value currently stored in the `config` variable. -/
def readConfigValue (s : ClientState) : ServerConfig :=
  s.heap.getD s.configAddr { baseUrl := "", timeoutMs := 0 }

/-- A caller mutating a JavaScript object in place: overwrite the heap cell
at address `a`. -/
def writeCell (s : ClientState) (a : Nat) (v : ServerConfig) : ClientState :=
  { s with heap := s.heap.set a v }

/-- client.ts lines 18-20: `config = \x7b ...config, ...overrides \x7d` allocates a
fresh object holding the merge and repoints the module variable at it. -/
def setConfig (s : ClientState) (o : PartialConfig) : ClientState :=
  { heap := s.heap ++ [mergeConfig (readConfigValue s) o]
    configAddr := s.heap.length }

/-- client.ts lines 22-24: `return \x7b ...config \x7d` allocates a fresh copy of
the current configuration and returns its address. -/
def getConfig (s : ClientState) : Nat × ClientState :=
  (s.heap.length, { s with heap := s.heap ++ [readConfigValue s] })

-- ── Request construction ────────────────────────────────────────────

/-- JavaScript values, as far as the request body is concerned. -/
inductive JsValue where
  | undef : JsValue
  | null : JsValue
  | bool : Bool → JsValue
  | num : Int → JsValue
  | str : String → JsValue
  | arr : List JsValue → JsValue
  | obj : List (String × JsValue) → JsValue

/-- JavaScript truthiness of a value (`body ? ... : ...`). -/
def truthy : JsValue → Bool
  | .undef => false
  | .null => false
  | .bool b => b
  | .num n => n != 0
  | .str s => !s.isEmpty
  | .arr _ => true
  | .obj _ => true

/-- JSON string escaping used by `JSON.stringify` (modelled for quote,
backslash, newline, carriage return and tab). -/
def jsonEscapeChar (c : Char) : String :=
  if c = '"' then "\\\""
  else if c = '\\' then "\\\\"
  else if c = '\n' then "\\n"
  else if c = '\r' then "\\r"
  else if c = '\t' then "\\t"
  else String.singleton c

def jsonEscape (s : String) : String :=
  String.join (s.toList.map jsonEscapeChar)

def jsonStringLit (s : String) : String :=
  "\"" ++ jsonEscape s ++ "\""

mutual
/-- Model of the host function `JSON.stringify` (client.ts line 55).
Returns `none` exactly when `JSON.stringify` returns `undefined`. -/
def jsonStringify : JsValue → Option String
  | .undef => none
  | .null => some "null"
  | .bool b => some (cond b "true" "false")
  | .num n => some (toString n)
  | .str s => some (jsonStringLit s)
  | .arr xs => some ("[" ++ String.intercalate "," (jsonStringifyArr xs) ++ "]")
  | .obj fs => some ("\x7b" ++ String.intercalate "," (jsonStringifyObj fs) ++ "\x7d")

/-- Array elements: an `undefined` element is rendered as `null`. -/
def jsonStringifyArr : List JsValue → List String
  | [] => []
  | v :: vs => ((jsonStringify v).getD "null") :: jsonStringifyArr vs

/-- Object fields: a field whose value stringifies to `undefined` is dropped. -/
def jsonStringifyObj : List (String × JsValue) → List String
  | [] => []
  | (k, v) :: fs =>
    match jsonStringify v with
    | none => jsonStringifyObj fs
    | some sv => (jsonStringLit k ++ ":" ++ sv) :: jsonStringifyObj fs
end

/-- HTTP methods accepted by `RequestOptions` (client.ts line 29). -/
inductive Method where
  | GET : Method
  | POST : Method
  deriving DecidableEq, Repr

/-- `RequestOptions` (client.ts lines 28-33).  Optional fields are `Option`. -/
structure RequestOptions where
  method : Option Method := none
  path : String
  params : Option (List (String × String)) := none
  body : Option JsValue := none

/-- The resolved URL: base, path and accumulated query parameters
(`new URL(path, config.baseUrl)` plus `searchParams.set`, lines 38-43). -/
structure UrlModel where
  base : String
  path : String
  query : List (String × String)
  deriving DecidableEq, Repr

/-- `url.searchParams.set(k, v)`: replace the value of an existing key,
otherwise append the pair. -/
def setParam (q : List (String × String)) (k v : String) : List (String × String) :=
  if q.any (fun p => p.1 == k) then
    q.map (fun p => if p.1 == k then (k, v) else p)
  else
    q ++ [(k, v)]

/-- client.ts lines 38-43: build the request URL from the configuration
read at call start and the descriptor. -/
def buildUrl (cfg : ServerConfig) (opts : RequestOptions) : UrlModel :=
  { base := cfg.baseUrl
    path := opts.path
    query := (opts.params.getD []).foldl (fun q p => setParam q p.1 p.2) [] }

/-- The outbound HTTP request handed to `fetch` (client.ts lines 49-57). -/
structure FetchRequest where
  url : UrlModel
  method : Method
  headers : List (String × String)
  body : Option String
  deriving DecidableEq, Repr

/-- client.ts lines 49-57: the `fetch` call.  `method = "GET"` is the
destructuring default of line 36; the body is sent only when the `body`
field is truthy (`body ? JSON.stringify(body) : undefined`, line 55). -/
def buildFetchRequest (cfg : ServerConfig) (opts : RequestOptions) : FetchRequest :=
  { url := buildUrl cfg opts
    method := opts.method.getD .GET
    headers := [("Content-Type", "application/json"), ("Accept", "application/json")]
    body :=
      match opts.body with
      | none => none
      | some v => if truthy v then jsonStringify v else none }

-- ── Transport oracle ────────────────────────────────────────────────

/-- Exceptions the transport layer (`fetch`, `response.text()`,
`response.json()`) can throw.  `domEx` is a `DOMException` carrying its
`name` and `message` (an abort surfaces as `domEx "AbortError" _`);
`err` is any other `Error` instance carrying its `message`; `nonError`
is a thrown non-`Error` value, carrying `String(value)`. -/
inductive TransportEx where
  | domEx : String → String → TransportEx
  | err : String → TransportEx
  | nonError : String → TransportEx
  deriving DecidableEq, Repr

/-- `error instanceof DOMException && error.name === "AbortError"`
(client.ts line 87). -/
def isAbortEx : TransportEx → Bool
  | .domEx name _ => name == "AbortError"
  | _ => false

/-- The string interpolated at client.ts line 95:
`error instanceof Error ? error.message : String(error)`.  A
`DOMException` is an `Error` instance on Node 18, so its `message` is
used. -/
def underlyingMsg : TransportEx → String
  | .domEx _ m => m
  | .err m => m
  | .nonError s => s

/-- A received HTTP response, including the behaviour of its body readers:
`textResult` is what `await response.text()` does, `jsonResult` what
`await response.json()` does (each may itself throw). -/
structure HttpResponse where
  status : Nat
  contentTypeHeader : Option String
  textResult : Except TransportEx String
  jsonResult : Except TransportEx JsValue

/-- What the awaited `fetch` call does: deliver a response, or throw. -/
inductive FetchOutcome where
  | response : HttpResponse → FetchOutcome
  | thrown : TransportEx → FetchOutcome

-- ── apiRequest ──────────────────────────────────────────────────────

/-- The `ApiError` class (client.ts lines 105-113): a message plus the
originating status code (0 for transport-level failures). -/
structure ApiError where
  message : String
  statusCode : Nat
  deriving DecidableEq, Repr

/-- The value a successful `apiRequest` resolves with: the parsed JSON
body (line 81) or the raw text body (line 83). -/
inductive Payload where
  | json : JsValue → Payload
  | text : String → Payload

/-- The message built at client.ts lines 62-67 for a 402 response. -/
def msg402 (text : String) : String :=
  "Payment required (HTTP 402). This is a paid endpoint that requires x402 payment. " ++
    "Your agent framework must handle the 402 response and provide payment. " ++
    "Details: " ++ text

/-- The message built at client.ts line 73 for any other non-2xx status. -/
def msgHttp (status : Nat) (text : String) : String :=
  "API request failed with status " ++ toString status ++ ": " ++ text

/-- The message built at client.ts line 89 for a timed-out request. -/
def msgTimeout (timeoutMs : Nat) : String :=
  "Request timed out after " ++ toString timeoutMs ++ "ms. Try again or increase timeout."

/-- The message built at client.ts line 95 for any other transport failure. -/
def msgNetwork (m : String) : String :=
  "Network error: " ++ m

/-- `response.ok`: status in the inclusive range 200-299. -/
def responseOk (status : Nat) : Bool :=
  200 ≤ status && status ≤ 299

/-- Scan for `needle` as a contiguous infix of the haystack. -/
def listInfixOf (needle : List Char) : List Char → Bool
  | [] => needle.isEmpty
  | c :: rest => needle.isPrefixOf (c :: rest) || listInfixOf needle rest

/-- JavaScript `String.prototype.includes` (client.ts line 80). -/
def strIncludes (s pat : String) : Bool :=
  listInfixOf pat.toList s.toList

/-- What the body of the `try` block throws: its own `ApiError` objects
(lines 62 and 72) or an exception propagated from the transport. -/
inductive TryErr where
  | api : ApiError → TryErr
  | transport : TransportEx → TryErr

/-- client.ts lines 49-83: the `try` block, given the transport behaviour.
Status 402 and other non-ok statuses read the body as text and throw an
`ApiError`; 2xx branches on whether the content type contains
"application/json" (missing header is treated as `""`, line 79).  Any
exception from the transport propagates. -/
def tryBody (f : FetchOutcome) : Except TryErr Payload :=
  match f with
  | .thrown e => .error (.transport e)
  | .response r =>
    if r.status == 402 then
      match r.textResult with
      | .ok text => .error (.api { message := msg402 text, statusCode := 402 })
      | .error e => .error (.transport e)
    else if !responseOk r.status then
      match r.textResult with
      | .ok text => .error (.api { message := msgHttp r.status text, statusCode := r.status })
      | .error e => .error (.transport e)
    else if strIncludes ((r.contentTypeHeader).getD "") "application/json" then
      match r.jsonResult with
      | .ok v => .ok (.json v)
      | .error e => .error (.transport e)
    else
      match r.textResult with
      | .ok s => .ok (.text s)
      | .error e => .error (.transport e)

/-- client.ts lines 84-97: the `catch` block.  An `ApiError` is rethrown
unchanged; an abort becomes the timeout error, reading `config.timeoutMs`
at handling time (`cfgCatch`); everything else becomes a network error. -/
def catchClause (cfgCatch : ServerConfig) : TryErr → ApiError
  | .api e => e
  | .transport te =>
    if isAbortEx te then
      { message := msgTimeout cfgCatch.timeoutMs, statusCode := 0 }
    else
      { message := msgNetwork (underlyingMsg te), statusCode := 0 }

/-- One run of `apiRequest` (client.ts lines 35-101).  `cfgStart` is the
configuration visible before the first `await` (lines 38 and 46);
`cfgCatch` is the configuration visible inside the catch handler
(line 89) — they differ only if `setConfig` ran while the call was
suspended.  The transport behaviour is the oracle `f`. -/
def apiRequestRun (cfgStart cfgCatch : ServerConfig) (opts : RequestOptions)
    (f : FetchOutcome) : Except ApiError Payload :=
  let _req := buildFetchRequest cfgStart opts
  match tryBody f with
  | .ok p => .ok p
  | .error e => .error (catchClause cfgCatch e)

/-- `apiRequest` when the configuration does not change during the call. -/
def apiRequest (cfg : ServerConfig) (opts : RequestOptions)
    (f : FetchOutcome) : Except ApiError Payload :=
  apiRequestRun cfg cfg opts f

-- ── Timer resource model ────────────────────────────────────────────

/-- The set of pending timers of the event loop: fresh-id counter plus the
pending `(id, delayMs)` pairs. -/
structure TimerState where
  nextId : Nat
  pending : List (Nat × Nat)
  deriving DecidableEq, Repr

/-- `setTimeout(fn, delay)`: allocate a fresh timer id and register it. -/
def setTimeoutModel (ts : TimerState) (delay : Nat) : Nat × TimerState :=
  (ts.nextId, { nextId := ts.nextId + 1, pending := ts.pending ++ [(ts.nextId, delay)] })

/-- `clearTimeout(timer)`: remove the timer from the pending set. -/
def clearTimeoutModel (ts : TimerState) (id : Nat) : TimerState :=
  { ts with pending := ts.pending.filter (fun p => p.1 ≠ id) }

/-- `apiRequest` with the timer resource made explicit: the timer is
started with `cfgStart.timeoutMs` (line 46) and the `finally` block
(line 99) clears it on every exit path.  Returns the dispatched request,
the outcome and the final timer state. -/
def apiRequestWithTimer (cfgStart cfgCatch : ServerConfig) (opts : RequestOptions)
    (f : FetchOutcome) (ts : TimerState) :
    FetchRequest × Except ApiError Payload × TimerState :=
  let req := buildFetchRequest cfgStart opts
  let alloc := setTimeoutModel ts cfgStart.timeoutMs
  let result :=
    match tryBody f with
    | .ok p => Except.ok p
    | .error e => Except.error (catchClause cfgCatch e)
  (req, result, clearTimeoutModel alloc.2 alloc.1)

-- ── Spec-side failure taxonomy ──────────────────────────────────────

/-- `s` contains `sub` as a substring. -/
def containsStr (s sub : String) : Prop :=
  ∃ pre post, s = pre ++ sub ++ post

/-- The spec taxonomy variant `PaymentRequired`: the failure produced by
the 402 branch. -/
def isPaymentRequiredFailure (e : ApiError) : Prop :=
  ∃ text, e.message = msg402 text ∧ e.statusCode = 402

/-- The spec taxonomy variant `HttpError`: the failure produced by the
generic non-2xx branch. -/
def isHttpErrorFailure (e : ApiError) : Prop :=
  ∃ status text, e.message = msgHttp status text ∧ e.statusCode = status

/-- The spec taxonomy variant `Timeout`. -/
def isTimeoutFailure (e : ApiError) : Prop :=
  ∃ ms, e.message = msgTimeout ms ∧ e.statusCode = 0

/-- The spec taxonomy variant `NetworkError`. -/
def isNetworkErrorFailure (e : ApiError) : Prop :=
  ∃ m, e.message = msgNetwork m ∧ e.statusCode = 0

/-- An error belongs to the four-variant taxonomy of the spec. -/
def classifiedFailure (e : ApiError) : Prop :=
  isPaymentRequiredFailure e ∨ isHttpErrorFailure e ∨
    isTimeoutFailure e ∨ isNetworkErrorFailure e

/-- Whether the run reaches the abort branch of the catch handler (the
only place the mid-call configuration is read). -/
def abortCaught (f : FetchOutcome) : Bool :=
  match tryBody f with
  | .error (.transport te) => isAbortEx te
  | _ => false

/-- The value stored at the address returned by `getConfig`. -/
def readCellValue (p : Nat × ClientState) : ServerConfig :=
  p.2.heap.getD p.1 { baseUrl := "", timeoutMs := 0 }

/-- Partial model of the throwing behaviour of the WHATWG URL constructor
`new URL(path, base)` invoked at client.ts line 38 — a host function.
The constructor throws `TypeError [ERR_INVALID_URL]` for inputs it cannot
parse into a URL record; the model covers the fragment the proofs rely
on: an input that is itself an absolute special-scheme URL with an empty
host, written exactly `"http://"` or `"https://"`, fails.  Every other
input is treated as resolving successfully, so the model
under-approximates the real failure set (more inputs throw in the
program than in the model). -/
def urlCtorThrows (path : String) (_base : String) : Bool :=
  path == "http://" || path == "https://"

/-- What a caller of `apiRequest` observes: either the function body runs
to a single outcome, or an exception thrown before the `try` block is
entered (line 38 precedes line 48) escapes the function raw, as a
non-ApiError value carrying only its message. -/
inductive CallResult where
  | outcome : Except ApiError Payload → CallResult
  | rawException : String → CallResult

/-- client.ts lines 35-101 including the URL construction at line 38.
Line 38 runs before the `try` block of line 48, so when
`new URL(path, config.baseUrl)` throws, the raw `TypeError` escapes
`apiRequest` unclassified (the tool layer renders such values through
the `Unexpected error` fallback of `formatError`, lines 115-120);
otherwise the call proceeds exactly as `apiRequestRun`. -/
def apiRequestCall (cfgStart cfgCatch : ServerConfig) (opts : RequestOptions)
    (f : FetchOutcome) : CallResult :=
  if urlCtorThrows opts.path cfgStart.baseUrl then
    .rawException "Invalid URL"
  else
    .outcome (apiRequestRun cfgStart cfgCatch opts f)

-- ── Concrete example inputs (used by witness theorems) ──────────────

def cfgEx : ServerConfig := { baseUrl := "https://api.example", timeoutMs := 50 }

def cfgSlowEx : ServerConfig := { baseUrl := "https://api.example", timeoutMs := 5000 }

def optsEx : RequestOptions :=
  { path := "/v1/score/basic", params := some [("wallet", "0xAAAA1111")] }

def r402Ex : HttpResponse :=
  { status := 402
    contentTypeHeader := some "application/json"
    textResult := .ok "pay 0.10 USDC"
    jsonResult := .error (.err "body already consumed") }

def r404Ex : HttpResponse :=
  { status := 404
    contentTypeHeader := some "text/plain"
    textResult := .ok "not found"
    jsonResult := .error (.err "body already consumed") }

def rJsonEx : HttpResponse :=
  { status := 200
    contentTypeHeader := some "application/json; charset=utf-8"
    textResult := .ok "raw"
    jsonResult := .ok (JsValue.obj [("score", JsValue.num 720)]) }

def rSvgEx : HttpResponse :=
  { status := 200
    contentTypeHeader := some "image/svg+xml"
    textResult := .ok "<svg></svg>"
    jsonResult := .error (.err "SyntaxError") }

def rBadJsonEx : HttpResponse :=
  { status := 200
    contentTypeHeader := some "application/json"
    textResult := .ok "<html>"
    jsonResult := .error (.err "Unexpected token < in JSON at position 0") }

def abortEx : TransportEx := .domEx "AbortError" "This operation was aborted"

def dnsErrEx : TransportEx := .err "getaddrinfo ENOTFOUND djd-agent-score.fly.dev"

def stateEx : ClientState :=
  { heap := [{ baseUrl := "https://api.example", timeoutMs := 50 }], configAddr := 0 }

def optsBodyFalseEx : RequestOptions :=
  { method := some .POST, path := "/v1/agents/register", body := some (JsValue.bool false) }

def bodyObjEx : JsValue := JsValue.obj [("wallet", JsValue.str "0xAAAA1111")]

def optsBodyObjEx : RequestOptions :=
  { method := some .POST, path := "/v1/agents/register", body := some bodyObjEx }

def timersEx : TimerState := { nextId := 0, pending := [] }

def optsBadUrlEx : RequestOptions := { path := "http://" }

-- ── Shared helper lemmas ────────────────────────────────────────────

lemma containsStr_append_right (pre s : String) : containsStr (pre ++ s) s :=
  ⟨pre, "", by rw [String.append_empty]⟩

lemma getD_append_left {α : Type} (l l' : List α) (i : Nat) (d : α) (h : i < l.length) :
    (l ++ l').getD i d = l.getD i d := by
  simp [List.getD_eq_getElem?_getD, List.getElem?_append_left h]

lemma readConfigValue_setConfig (s : ClientState) (o : PartialConfig) :
    readConfigValue (setConfig s o) = mergeConfig (readConfigValue s) o := by
  unfold setConfig
  simp [readConfigValue, List.getD_eq_getElem?_getD, List.getElem?_concat_length]

lemma readCellValue_getConfig (s : ClientState) :
    readCellValue (getConfig s) = readConfigValue s := by
  unfold readCellValue getConfig readConfigValue
  simp [List.getD_eq_getElem?_getD, List.getElem?_concat_length]

lemma beq402_false_of_ok {st : Nat} (hok : responseOk st = true) : (st == 402) = false := by
  by_contra h
  simp only [Bool.not_eq_false, beq_iff_eq] at h
  subst h
  exact absurd hok (by decide)

lemma msgTimeout_contains_duration (ms : Nat) :
    containsStr (msgTimeout ms) (toString ms ++ "ms") := by
  refine ⟨"Request timed out after ", ". Try again or increase timeout.", ?_⟩
  unfold msgTimeout
  have h : ("ms. Try again or increase timeout." : String) =
      "ms" ++ ". Try again or increase timeout." := by decide
  rw [h]
  simp [String.append_assoc]

lemma msgNetwork_ne_msgHttp (m : String) (status : Nat) (text : String) :
    msgNetwork m ≠ msgHttp status text := by
  intro h
  have hN : ((msgNetwork m).data).head? = some 'N' := rfl
  have hA : ((msgHttp status text).data).head? = some 'A' := rfl
  rw [h] at hN
  rw [hA] at hN
  exact absurd hN (by decide)

lemma classifiedFailure_catch_transport (cfgC : ServerConfig) (te : TransportEx) :
    classifiedFailure (catchClause cfgC (.transport te)) := by
  unfold catchClause classifiedFailure
  by_cases hab : isAbortEx te = true
  · simp only [hab, if_true]
    exact Or.inr (Or.inr (Or.inl ⟨cfgC.timeoutMs, rfl, rfl⟩))
  · simp only [Bool.not_eq_true] at hab
    simp only [hab, Bool.false_eq_true, if_false]
    exact Or.inr (Or.inr (Or.inr ⟨underlyingMsg te, rfl, rfl⟩))

lemma tryBody_api_shape (f : FetchOutcome) (a : ApiError)
    (h : tryBody f = .error (.api a)) :
    isPaymentRequiredFailure a ∨ isHttpErrorFailure a := by
  unfold tryBody at h
  cases f with
  | thrown te => simp at h
  | response r =>
    by_cases h402 : (r.status == 402) = true
    · simp only [h402, if_true] at h
      cases htext : r.textResult with
      | ok t =>
        rw [htext] at h
        simp only [Except.error.injEq, TryErr.api.injEq] at h
        exact Or.inl ⟨t, by rw [← h], by rw [← h]⟩
      | error e => rw [htext] at h; simp at h
    · simp only [Bool.not_eq_true] at h402
      simp only [h402, Bool.false_eq_true, if_false] at h
      by_cases hok : responseOk r.status = true
      · simp only [hok, Bool.not_true, Bool.false_eq_true, if_false] at h
        split at h <;> split at h <;> simp_all
      · simp only [Bool.not_eq_true] at hok
        simp only [hok, Bool.not_false, if_true] at h
        cases htext : r.textResult with
        | ok t =>
          rw [htext] at h
          simp only [Except.error.injEq, TryErr.api.injEq] at h
          exact Or.inr ⟨r.status, t, by rw [← h], by rw [← h]⟩
        | error e => rw [htext] at h; simp at h

lemma classifiedFailure_catch (cfgC : ServerConfig) (f : FetchOutcome) (e : TryErr)
    (h : tryBody f = .error e) : classifiedFailure (catchClause cfgC e) := by
  cases e with
  | api a =>
    rcases tryBody_api_shape f a h with h1 | h2
    · exact Or.inl h1
    · exact Or.inr (Or.inl h2)
  | transport te => exact classifiedFailure_catch_transport cfgC te

-- ── Claim theorems ──────────────────────────────────────────────────

/-- C1: for every executed request that receives a non-2xx HTTP response
(with a readable body), a 402 status produces the PaymentRequired failure
whose message contains the literal body text and whose statusCode is 402,
regardless of HTTP method; any other non-2xx status produces the HttpError
failure whose message contains both the numeric status and the body text,
and whose statusCode equals that status. -/
theorem non2xx_status_classification (cfg : ServerConfig) (opts : RequestOptions)
    (r : HttpResponse) (text : String)
    (htext : r.textResult = .ok text) :
    (r.status = 402 →
      apiRequest cfg opts (.response r) =
        .error { message := msg402 text, statusCode := 402 } ∧
      isPaymentRequiredFailure { message := msg402 text, statusCode := 402 } ∧
      containsStr (msg402 text) text) ∧
    (responseOk r.status = false → r.status ≠ 402 →
      apiRequest cfg opts (.response r) =
        .error { message := msgHttp r.status text, statusCode := r.status } ∧
      isHttpErrorFailure { message := msgHttp r.status text, statusCode := r.status } ∧
      containsStr (msgHttp r.status text) text ∧
      containsStr (msgHttp r.status text) (toString r.status)) := by
  constructor
  · intro h402
    have hbeq : (r.status == 402) = true := by simp [h402]
    refine ⟨?_, ⟨text, rfl, rfl⟩, containsStr_append_right _ text⟩
    unfold apiRequest apiRequestRun tryBody catchClause
    simp [hbeq, htext]
  · intro hbad hne
    have hbeq : (r.status == 402) = false := by simp [hne]
    refine ⟨?_, ⟨r.status, text, rfl, rfl⟩, containsStr_append_right _ text, ?_⟩
    · unfold apiRequest apiRequestRun tryBody catchClause
      simp [hbeq, hbad, htext]
    · exact ⟨"API request failed with status ", ": " ++ text, by
        unfold msgHttp
        rw [String.append_assoc]⟩

/-- C1 witness: a 402 response with body "pay 0.10 USDC" yields the
PaymentRequired failure, and a 404 response with body "not found" yields
the HttpError failure with statusCode 404. -/
theorem non2xx_status_classification_witness :
    apiRequest cfgEx optsEx (.response r402Ex) =
      .error { message := msg402 "pay 0.10 USDC", statusCode := 402 } ∧
    apiRequest cfgEx optsEx (.response r404Ex) =
      .error { message := msgHttp 404 "not found", statusCode := 404 } :=
  ⟨((non2xx_status_classification cfgEx optsEx r402Ex "pay 0.10 USDC" rfl).1 rfl).1,
   ((non2xx_status_classification cfgEx optsEx r404Ex "not found" rfl).2
      (by decide) (by decide)).1⟩

/-- C2: when the transport itself throws, an abort (a DOMException named
"AbortError") produces the Timeout failure whose message states the
configured timeout duration and whose statusCode is 0; any other thrown
exception produces the NetworkError failure wrapping the underlying
message, with statusCode 0. -/
theorem transport_exception_classification (cfg : ServerConfig)
    (opts : RequestOptions) (te : TransportEx) :
    (isAbortEx te = true →
      apiRequest cfg opts (.thrown te) =
        .error { message := msgTimeout cfg.timeoutMs, statusCode := 0 } ∧
      containsStr (msgTimeout cfg.timeoutMs) (toString cfg.timeoutMs ++ "ms") ∧
      isTimeoutFailure { message := msgTimeout cfg.timeoutMs, statusCode := 0 }) ∧
    (isAbortEx te = false →
      apiRequest cfg opts (.thrown te) =
        .error { message := msgNetwork (underlyingMsg te), statusCode := 0 } ∧
      isNetworkErrorFailure { message := msgNetwork (underlyingMsg te), statusCode := 0 }) := by
  constructor
  · intro hab
    refine ⟨?_, msgTimeout_contains_duration _, ⟨cfg.timeoutMs, rfl, rfl⟩⟩
    unfold apiRequest apiRequestRun tryBody catchClause
    simp [hab]
  · intro hab
    refine ⟨?_, ⟨underlyingMsg te, rfl, rfl⟩⟩
    unfold apiRequest apiRequestRun tryBody catchClause
    simp [hab]

/-- C2 witness: an abort under a 50ms configuration yields the Timeout
failure with statusCode 0, and a DNS failure yields the NetworkError
failure with statusCode 0. -/
theorem transport_exception_classification_witness :
    apiRequest cfgEx optsEx (.thrown abortEx) =
      .error { message := msgTimeout 50, statusCode := 0 } ∧
    apiRequest cfgEx optsEx (.thrown dnsErrEx) =
      .error { message :=
        msgNetwork "getaddrinfo ENOTFOUND djd-agent-score.fly.dev", statusCode := 0 } :=
  ⟨((transport_exception_classification cfgEx optsEx abortEx).1 rfl).1,
   ((transport_exception_classification cfgEx optsEx dnsErrEx).2 rfl).1⟩

/-- C3: a 2xx response whose content-type header contains
"application/json" returns Success with the parsed JSON body unchanged;
a 2xx response with any other content type returns Success with the raw
text body, with no parse attempt. -/
theorem success_content_type_branch (cfg : ServerConfig) (opts : RequestOptions)
    (r : HttpResponse) (v : JsValue) (s : String)
    (hok : responseOk r.status = true) :
    (strIncludes ((r.contentTypeHeader).getD "") "application/json" = true →
      r.jsonResult = .ok v →
      apiRequest cfg opts (.response r) = .ok (.json v)) ∧
    (strIncludes ((r.contentTypeHeader).getD "") "application/json" = false →
      r.textResult = .ok s →
      apiRequest cfg opts (.response r) = .ok (.text s)) := by
  have h402 : (r.status == 402) = false := beq402_false_of_ok hok
  constructor
  · intro hct hres
    unfold apiRequest apiRequestRun tryBody
    simp [h402, hok, hct, hres]
  · intro hct hres
    unfold apiRequest apiRequestRun tryBody
    simp [h402, hok, hct, hres]

/-- C3 witness: a 200 JSON response returns the parsed object unchanged
and a 200 SVG response returns the raw text. -/
theorem success_content_type_branch_witness :
    apiRequest cfgEx optsEx (.response rJsonEx) =
      .ok (.json (JsValue.obj [("score", JsValue.num 720)])) ∧
    apiRequest cfgEx optsEx (.response rSvgEx) = .ok (.text "<svg></svg>") :=
  ⟨(success_content_type_branch cfgEx optsEx rJsonEx
      (JsValue.obj [("score", JsValue.num 720)]) "raw" rfl).1 (by decide) rfl,
   (success_content_type_branch cfgEx optsEx rSvgEx
      (JsValue.obj []) "<svg></svg>" rfl).2 (by decide) rfl⟩

/-- C4 counterexample: for the descriptor with path "http://", the URL
constructor at client.ts line 38 throws a raw TypeError before the `try`
block is entered, and that unclassified exception escapes the executor:
the call does not produce a classified outcome, for any transport
behaviour it would otherwise have exercised. -/
theorem url_ctor_throw_escapes_unclassified :
    optsBadUrlEx.path = "http://" ∧
    urlCtorThrows optsBadUrlEx.path cfgEx.baseUrl = true ∧
    apiRequestCall cfgEx cfgEx optsBadUrlEx (.thrown dnsErrEx) =
      .rawException "Invalid URL" ∧
    apiRequestCall cfgEx cfgEx optsBadUrlEx (.response rJsonEx) =
      .rawException "Invalid URL" :=
  ⟨rfl, rfl, rfl, rfl⟩

/-- C4 (amended): for every request descriptor whose URL construction
succeeds, and every behaviour of the transport, the call runs to exactly
one outcome and every failing call carries an error belonging to the
four-variant taxonomy; but for a descriptor whose path makes
`new URL(path, baseUrl)` throw, the raw exception escapes the executor
unclassified, because line 38 precedes the `try` block. -/
theorem every_failure_classified (cfgS cfgC : ServerConfig)
    (opts : RequestOptions) (f : FetchOutcome)
    (hurl : urlCtorThrows opts.path cfgS.baseUrl = false) :
    apiRequestCall cfgS cfgC opts f = .outcome (apiRequestRun cfgS cfgC opts f) ∧
    ((∃ p, apiRequestRun cfgS cfgC opts f = .ok p) ∨
     (∃ e, apiRequestRun cfgS cfgC opts f = .error e ∧ classifiedFailure e)) := by
  refine ⟨by simp [apiRequestCall, hurl], ?_⟩
  unfold apiRequestRun
  cases htry : tryBody f with
  | ok p => exact Or.inl ⟨p, rfl⟩
  | error e => exact Or.inr ⟨catchClause cfgC e, rfl, classifiedFailure_catch cfgC f e htry⟩

/-- C4 witness: a well-formed descriptor under a DNS failure runs to a
single, classified outcome. -/
theorem every_failure_classified_witness :
    apiRequestCall cfgEx cfgEx optsEx (.thrown dnsErrEx) =
      .outcome (apiRequestRun cfgEx cfgEx optsEx (.thrown dnsErrEx)) ∧
    ((∃ p, apiRequestRun cfgEx cfgEx optsEx (.thrown dnsErrEx) = .ok p) ∨
     (∃ e, apiRequestRun cfgEx cfgEx optsEx (.thrown dnsErrEx) = .error e ∧
       classifiedFailure e)) :=
  every_failure_classified cfgEx cfgEx optsEx (.thrown dnsErrEx) rfl

/-- C5: the cancellation timer started at the beginning of the call is
cleared before the call returns, on every exit path: the pending-timer
set after the call equals the one before it, and the timer allocated by
the call is not pending afterwards. -/
theorem timer_always_cleared (cfgS cfgC : ServerConfig) (opts : RequestOptions)
    (f : FetchOutcome) (ts : TimerState)
    (h : ∀ p ∈ ts.pending, p.1 < ts.nextId) :
    ((apiRequestWithTimer cfgS cfgC opts f ts).2.2).pending = ts.pending ∧
    ∀ p ∈ ((apiRequestWithTimer cfgS cfgC opts f ts).2.2).pending, p.1 ≠ ts.nextId := by
  have key : ((apiRequestWithTimer cfgS cfgC opts f ts).2.2).pending = ts.pending := by
    unfold apiRequestWithTimer setTimeoutModel clearTimeoutModel
    simp only [List.filter_append]
    simp
    intro a b hab
    exact Nat.ne_of_lt (h (a, b) hab)
  refine ⟨key, ?_⟩
  rw [key]
  intro p hp
  exact Nat.ne_of_lt (h p hp)

/-- C5 witness: starting from an empty pending-timer set, a timed-out
call leaves the pending set empty. -/
theorem timer_always_cleared_witness :
    ((apiRequestWithTimer cfgEx cfgEx optsEx (.thrown abortEx) timersEx).2.2).pending =
      timersEx.pending :=
  (timer_always_cleared cfgEx cfgEx optsEx (.thrown abortEx) timersEx
    (by intro p hp; simp [timersEx] at hp)).1

/-- C6 counterexample: the descriptor body `false` is present and
serializes to "false", yet the dispatched request carries no body,
because line 55 tests truthiness (`body ? ... : undefined`), not
presence. -/
theorem falsy_body_not_serialized :
    optsBodyFalseEx.body = some (JsValue.bool false) ∧
    jsonStringify (JsValue.bool false) = some "false" ∧
    (buildFetchRequest cfgEx optsBodyFalseEx).body = none :=
  ⟨rfl, by simp [jsonStringify], rfl⟩

/-- C6 (amended): every dispatched call carries the two JSON headers; the
request body is the JSON serialization of the descriptor body exactly
when that body is present and truthy; an absent body, or a present but
falsy one (false, 0, "", null), sends no body. -/
theorem request_headers_and_body (cfg : ServerConfig) (opts : RequestOptions) :
    (buildFetchRequest cfg opts).headers =
      [("Content-Type", "application/json"), ("Accept", "application/json")] ∧
    (opts.body = none → (buildFetchRequest cfg opts).body = none) ∧
    (∀ v, opts.body = some v → truthy v = true →
      (buildFetchRequest cfg opts).body = jsonStringify v) ∧
    (∀ v, opts.body = some v → truthy v = false →
      (buildFetchRequest cfg opts).body = none) := by
  refine ⟨rfl, ?_, ?_, ?_⟩
  · intro hb
    simp [buildFetchRequest, hb]
  · intro v hb ht
    simp [buildFetchRequest, hb, ht]
  · intro v hb ht
    simp [buildFetchRequest, hb, ht]

/-- C6 witness: a POST with an object body carries the JSON headers and
the serialized body. -/
theorem request_headers_and_body_witness :
    (buildFetchRequest cfgEx optsBodyObjEx).headers =
      [("Content-Type", "application/json"), ("Accept", "application/json")] ∧
    (buildFetchRequest cfgEx optsBodyObjEx).body = jsonStringify bodyObjEx :=
  ⟨(request_headers_and_body cfgEx optsBodyObjEx).1,
   (request_headers_and_body cfgEx optsBodyObjEx).2.2.1 bodyObjEx rfl rfl⟩

/-- C7 counterexample: two runs that differ only in a mid-call
configuration change produce different outcomes.  With a 50ms starting
configuration, a mid-flight `setConfig` raising `timeoutMs` to 5000
makes the abort handler report "timed out after 5000ms", because
line 89 re-reads `config.timeoutMs` at error-handling time. -/
theorem midcall_config_changes_timeout_message :
    apiRequestRun cfgEx cfgSlowEx optsEx (.thrown abortEx) ≠
      apiRequestRun cfgEx cfgEx optsEx (.thrown abortEx) ∧
    apiRequestRun cfgEx cfgSlowEx optsEx (.thrown abortEx) =
      .error { message := msgTimeout 5000, statusCode := 0 } ∧
    apiRequestRun cfgEx cfgEx optsEx (.thrown abortEx) =
      .error { message := msgTimeout 50, statusCode := 0 } := by
  refine ⟨?_, rfl, rfl⟩
  intro hcontra
  rw [show apiRequestRun cfgEx cfgSlowEx optsEx (.thrown abortEx) =
      Except.error { message := msgTimeout 5000, statusCode := 0 } from rfl,
    show apiRequestRun cfgEx cfgEx optsEx (.thrown abortEx) =
      Except.error { message := msgTimeout 50, statusCode := 0 } from rfl] at hcontra
  have hmsg : msgTimeout 5000 = msgTimeout 50 := by
    injection hcontra with h1
    injection h1 with hm hs
  exact absurd hmsg (by decide)

/-- C7 (amended): a mid-call configuration change has no effect on the
outcome except through the abort handler: two runs agree whenever the
change preserves `timeoutMs`, and any run that does not end in the
abort branch equals the run under the unchanged starting
configuration. -/
theorem midcall_config_effect (cfgS c1 c2 : ServerConfig)
    (opts : RequestOptions) (f : FetchOutcome) :
    (c1.timeoutMs = c2.timeoutMs →
      apiRequestRun cfgS c1 opts f = apiRequestRun cfgS c2 opts f) ∧
    (abortCaught f = false →
      apiRequestRun cfgS c1 opts f = apiRequestRun cfgS cfgS opts f) := by
  constructor
  · intro heq
    unfold apiRequestRun
    cases htry : tryBody f with
    | ok p => rfl
    | error e =>
      cases e with
      | api a => rfl
      | transport te =>
        unfold catchClause
        by_cases hab : isAbortEx te = true
        · simp [hab, msgTimeout, heq]
        · simp only [Bool.not_eq_true] at hab
          simp [hab]
  · intro hnoab
    unfold abortCaught at hnoab
    unfold apiRequestRun
    cases htry : tryBody f with
    | ok p => rfl
    | error e =>
      rw [htry] at hnoab
      cases e with
      | api a => rfl
      | transport te =>
        unfold catchClause
        simp at hnoab
        simp [hnoab]

/-- C7 witness: under a DNS failure (no abort), the mid-call
configuration is irrelevant: the run with a changed configuration equals
the run with the starting one. -/
theorem midcall_config_effect_witness :
    apiRequestRun cfgEx cfgSlowEx optsEx (.thrown dnsErrEx) =
      apiRequestRun cfgEx cfgEx optsEx (.thrown dnsErrEx) :=
  (midcall_config_effect cfgEx cfgSlowEx cfgSlowEx optsEx (.thrown dnsErrEx)).2 rfl

/-- C8: setConfig replaces exactly the fields provided in the override
and preserves every field not provided; in particular, after
`setConfig(\x7b timeoutMs: 5000 \x7d)`, getConfig returns the prior baseUrl
unchanged and timeoutMs equal to 5000. -/
theorem setConfig_merges_overrides (s : ClientState) (o : PartialConfig) :
    (o.baseUrl = none →
      (readConfigValue (setConfig s o)).baseUrl = (readConfigValue s).baseUrl) ∧
    (∀ u, o.baseUrl = some u → (readConfigValue (setConfig s o)).baseUrl = u) ∧
    (o.timeoutMs = none →
      (readConfigValue (setConfig s o)).timeoutMs = (readConfigValue s).timeoutMs) ∧
    (∀ n, o.timeoutMs = some n → (readConfigValue (setConfig s o)).timeoutMs = n) ∧
    (o = { baseUrl := none, timeoutMs := some 5000 } →
      readCellValue (getConfig (setConfig s o)) =
        { baseUrl := (readConfigValue s).baseUrl, timeoutMs := 5000 }) := by
  refine ⟨?_, ?_, ?_, ?_, ?_⟩
  · intro hb
    rw [readConfigValue_setConfig]
    simp [mergeConfig, hb]
  · intro u hb
    rw [readConfigValue_setConfig]
    simp [mergeConfig, hb]
  · intro ht
    rw [readConfigValue_setConfig]
    simp [mergeConfig, ht]
  · intro n ht
    rw [readConfigValue_setConfig]
    simp [mergeConfig, ht]
  · intro ho
    subst ho
    rw [readCellValue_getConfig, readConfigValue_setConfig]
    simp [mergeConfig]

/-- C8 witness: the concrete scenario at a concrete store. -/
theorem setConfig_merges_overrides_witness :
    readCellValue (getConfig (setConfig stateEx { baseUrl := none, timeoutMs := some 5000 })) =
      { baseUrl := (readConfigValue stateEx).baseUrl, timeoutMs := 5000 } :=
  (setConfig_merges_overrides stateEx { baseUrl := none, timeoutMs := some 5000 }).2.2.2.2 rfl

/-- C9: getConfig returns a copy — overwriting the object it returns
leaves the internal configuration unchanged, and a subsequent getConfig
still returns the configuration from before the mutation. -/
theorem getConfig_returns_copy (s : ClientState) (h : s.wf) (v : ServerConfig) :
    readConfigValue (writeCell (getConfig s).2 (getConfig s).1 v) = readConfigValue s ∧
    readCellValue (getConfig (writeCell (getConfig s).2 (getConfig s).1 v)) =
      readConfigValue s := by
  have hset : ((s.heap ++ [readConfigValue s]).set s.heap.length v) = s.heap ++ [v] := by
    rw [List.set_append_right _ _ (Nat.le_refl _)]
    simp
  have key : readConfigValue (writeCell (getConfig s).2 (getConfig s).1 v) =
      readConfigValue s := by
    show readConfigValue
      { heap := (s.heap ++ [readConfigValue s]).set s.heap.length v
        configAddr := s.configAddr } = readConfigValue s
    rw [hset]
    unfold readConfigValue
    exact getD_append_left _ _ _ _ h
  exact ⟨key, by rw [readCellValue_getConfig, key]⟩

/-- C9 witness: mutating the copy returned over a singleton-heap store
does not change what the store reports. -/
theorem getConfig_returns_copy_witness :
    readConfigValue (writeCell (getConfig stateEx).2 (getConfig stateEx).1
      { baseUrl := "http://evil.example", timeoutMs := 1 }) = readConfigValue stateEx :=
  (getConfig_returns_copy stateEx (by show 0 < 1; decide)
    { baseUrl := "http://evil.example", timeoutMs := 1 }).1

/-- C10: a 2xx response with a JSON content type whose body fails to
parse (the parse throws an ordinary Error) is classified as a
NetworkError failure with statusCode 0, not as an HTTP-layer failure,
even though an HTTP response was received. -/
theorem json_parse_failure_is_network_error (cfg : ServerConfig)
    (opts : RequestOptions) (r : HttpResponse) (m : String)
    (hok : responseOk r.status = true)
    (hct : strIncludes ((r.contentTypeHeader).getD "") "application/json" = true)
    (hjson : r.jsonResult = .error (.err m)) :
    apiRequest cfg opts (.response r) =
      .error { message := msgNetwork m, statusCode := 0 } ∧
    isNetworkErrorFailure { message := msgNetwork m, statusCode := 0 } ∧
    ¬ isHttpErrorFailure { message := msgNetwork m, statusCode := 0 } := by
  have h402 : (r.status == 402) = false := beq402_false_of_ok hok
  refine ⟨?_, ⟨m, rfl, rfl⟩, ?_⟩
  · unfold apiRequest apiRequestRun tryBody catchClause
    simp [h402, hok, hct, hjson, isAbortEx, underlyingMsg]
  · rintro ⟨st, tx, hmsg, -⟩
    exact msgNetwork_ne_msgHttp m st tx hmsg

/-- C10 witness: a 200 JSON response whose body is HTML yields the
NetworkError failure with statusCode 0. -/
theorem json_parse_failure_is_network_error_witness :
    apiRequest cfgEx optsEx (.response rBadJsonEx) =
      .error { message := msgNetwork "Unexpected token < in JSON at position 0",
               statusCode := 0 } :=
  (json_parse_failure_is_network_error cfgEx optsEx rBadJsonEx
    "Unexpected token < in JSON at position 0" rfl (by decide) rfl).1
